import Mathlib

/-!
Verification of the credential-exchange flow in
`src/streamlit_app/app.py` (garmin-grafana).

The Python script is a single Streamlit page.  We shallowly embed the
parts the specification talks about:

* the token directory and the presence check (line 90),
* the clear-tokens button handler (lines 96-103),
* the per-session state dictionary (lines 110-117),
* the login-form submit handler (lines 131-162),
* the MFA-form submit handler (lines 174-194),
* the login-form gate (line 120),
* the region-flag parse (line 19).

External calls (the `Garmin` constructor plus `login`, `resume_login`,
`garth.dump`, `Path.unlink`) are opaque delegations; each embedding
takes their outcome (normal return or raised exception) as an explicit
parameter and reproduces the handler's control flow around them.
-/

namespace GarminApp

/-- One entry of the token directory.  `unlinkError` records what
`file.unlink()` would do on this entry: `none` means the deletion
succeeds, `some msg` means it raises an exception carrying `msg`. -/
structure Entry where
  name : String
  unlinkError : Option String
deriving Repr, DecidableEq

/-- The token directory seen by the script: `none` when
`Path(TOKEN_DIR).exists()` is false, `some entries` when the directory
exists and `iterdir()` yields `entries`. -/
abbrev Dir := Option (List Entry)

/-- Line 90:
`token_files_exist = Path(TOKEN_DIR).exists() and any(Path(TOKEN_DIR).iterdir())`.
A pure (read-only) function of the directory contents. -/
def token_files_exist (d : Dir) : Bool :=
  match d with
  | none => false
  | some entries => !entries.isEmpty

/-- Lines 98-99, the body of the clear-tokens `try` block:
`for file in Path(TOKEN_DIR).iterdir(): file.unlink()`.
Entries are deleted left to right; the first failing `unlink` raises,
aborting the loop, so the failing entry and every entry after it
remain.  Returns the entries still present and the raised message, if
any. -/
def clear_tokens : List Entry → List Entry × Option String
  | [] => ([], none)
  | e :: rest =>
    match e.unlinkError with
    | some msg => (e :: rest, some msg)
    | none => clear_tokens rest

/-- Lines 96-103, the clear-tokens button handler: runs the deletion
loop and, if it raised, shows `st.error(f"Error clearing tokens: {e}")`.
Returns the entries still present and the error banner, if any. -/
def clear_tokens_handler (entries : List Entry) : List Entry × Option String :=
  let r := clear_tokens entries
  (r.1, r.2.map (fun msg => "Error clearing tokens: " ++ msg))

/-- The arguments the script passes to the `Garmin` constructor
(lines 137-142); this opaque handle is what the needs-MFA branch
stores in `st.session_state.garmin_obj`. -/
structure GarminHandle where
  email : String
  password : String
  is_cn : Bool
  return_on_mfa : Bool
deriving Repr, DecidableEq

/-- The per-session state dictionary initialised at lines 110-117:
`authenticated`, `needs_mfa`, `garmin_obj`, `mfa_data`. -/
structure SessionState where
  authenticated : Bool
  needs_mfa : Bool
  garmin_obj : Option GarminHandle
  mfa_data : Option String
deriving Repr, DecidableEq

/-- Lines 110-117: every field starts absent / false. -/
def initSessionState : SessionState :=
  { authenticated := false, needs_mfa := false, garmin_obj := none, mfa_data := none }

/-- An exception raised by an external call, as the handlers
distinguish them: `GarminConnectAuthenticationError` versus any other
exception (lines 157-162 and 189-194). -/
inductive GError where
  | auth (msg : String)
  | other (msg : String)
deriving Repr, DecidableEq

/-- Error banner produced by the login handler's `except` clauses
(lines 157-162). -/
def loginBannerOf : GError → String
  | .auth msg => "Authentication failed: " ++ msg
  | .other msg => "Error: " ++ msg

/-- Error banner produced by the MFA handler's `except` clauses
(lines 189-194). -/
def mfaBannerOf : GError → String
  | .auth msg => "MFA verification failed: " ++ msg
  | .other msg => "Error: " ++ msg

/-- Outcome of the external calls a single login submission can make:
`loginResult` is what `Garmin(...).login()` does (returns the pair
`(result1, result2)` or raises), and `dumpError` is what
`garmin.garth.dump(TOKEN_DIR)` would do if reached (`none` = returns
normally, `some e` = raises `e`). -/
structure LoginEnv where
  loginResult : Except GError (String × String)
  dumpError : Option GError
deriving Repr

/-- Observable outcome of one login-form submission: the session state
afterwards, whether the external login call was made, whether the
token dump was attempted, whether the empty-input validation error was
shown, and the error banner, if any. -/
structure LoginOutput where
  state : SessionState
  loginCalled : Bool
  dumpCalled : Bool
  validationError : Bool
  errorBanner : Option String
deriving Repr, DecidableEq

/-- Lines 131-162, the login-form submit handler.

`if not email or not password` shows the validation error and makes no
external call.  Otherwise `Garmin(...).login()` runs; if it raises,
the `except` clauses show a banner and touch no session state.  On a
`"needs_mfa"` first result the handler stores the live handle and the
challenge context and sets `needs_mfa` (lines 145-149).  On any other
first result it immediately calls `garmin.garth.dump(TOKEN_DIR)`; if
that raises, the same `except` clauses catch it before
`st.session_state.authenticated = True` executes; otherwise
`authenticated` is set (lines 150-155). -/
def login_form_submit (email password : String) (is_cn : Bool)
    (env : LoginEnv) (s : SessionState) : LoginOutput :=
  if email = "" ∨ password = "" then
    { state := s, loginCalled := false, dumpCalled := false,
      validationError := true, errorBanner := none }
  else
    match env.loginResult with
    | .error e =>
      { state := s, loginCalled := true, dumpCalled := false,
        validationError := false, errorBanner := some (loginBannerOf e) }
    | .ok (result1, result2) =>
      if result1 = "needs_mfa" then
        { state := { s with needs_mfa := true,
                            garmin_obj := some ⟨email, password, is_cn, true⟩,
                            mfa_data := some result2 },
          loginCalled := true, dumpCalled := false,
          validationError := false, errorBanner := none }
      else
        match env.dumpError with
        | some e =>
          { state := s, loginCalled := true, dumpCalled := true,
            validationError := false, errorBanner := some (loginBannerOf e) }
        | none =>
          { state := { s with authenticated := true },
            loginCalled := true, dumpCalled := true,
            validationError := false, errorBanner := none }

/-- Outcome of the external calls a single MFA submission can make:
`resumeError` is what `garmin.resume_login(mfa_data, mfa_code)` does
and `dumpError` what `garmin.garth.dump(TOKEN_DIR)` would do if
reached (`none` = normal return, `some e` = raises `e`). -/
structure MfaEnv where
  resumeError : Option GError
  dumpError : Option GError
deriving Repr, DecidableEq

/-- Observable outcome of one MFA-form submission. -/
structure MfaOutput where
  state : SessionState
  resumeCalled : Bool
  dumpCalled : Bool
  validationError : Bool
  errorBanner : Option String
deriving Repr, DecidableEq

/-- Lines 174-194, the MFA-form submit handler.

`if not mfa_code` shows the validation error and makes no call.
Otherwise `resume_login` runs, then `garth.dump`; if either raises,
the `except` clauses show a banner and no session-state assignment has
happened yet.  Only after both return does the handler set
`authenticated = True` and `needs_mfa = False` (lines 184-185); note
it leaves `garmin_obj` and `mfa_data` in place. -/
def mfa_form_submit (mfa_code : String) (env : MfaEnv)
    (s : SessionState) : MfaOutput :=
  if mfa_code = "" then
    { state := s, resumeCalled := false, dumpCalled := false,
      validationError := true, errorBanner := none }
  else
    match env.resumeError with
    | some e =>
      { state := s, resumeCalled := true, dumpCalled := false,
        validationError := false, errorBanner := some (mfaBannerOf e) }
    | none =>
      match env.dumpError with
      | some e =>
        { state := s, resumeCalled := true, dumpCalled := true,
          validationError := false, errorBanner := some (mfaBannerOf e) }
      | none =>
        { state := { s with authenticated := true, needs_mfa := false },
          resumeCalled := true, dumpCalled := true,
          validationError := false, errorBanner := none }

/-- Line 120, the gate deciding whether the login form is rendered:
`if not st.session_state.authenticated and not token_files_exist`. -/
def show_login_form (s : SessionState) (tokensPresent : Bool) : Bool :=
  !s.authenticated && !tokensPresent

/-- Python `str.lower()`: lowercase the string character by
character. -/
def pyLower (s : String) : String :=
  String.mk (s.data.map Char.toLower)

/-- Line 19:
`GARMINCONNECT_IS_CN = os.getenv("GARMINCONNECT_IS_CN", "False").lower() in ['true', 't', 'yes', '1']`.
`envVal` is the raw environment value, `none` when the variable is
unset (then `os.getenv` yields the default `"False"`). -/
def garminconnect_is_cn (envVal : Option String) : Bool :=
  decide (pyLower (envVal.getD "False") ∈ (["true", "t", "yes", "1"] : List String))

/-- C3: Token Presence Check returns `present` exactly when the token
directory exists and holds at least one entry; a missing or empty
directory yields `absent`.  The check is the pure expression at line
90 of `app.py`, so it has no side effect on the directory. -/
theorem tokenPresence_iff_exists_nonempty (d : Dir) :
    token_files_exist d = true ↔ ∃ entries, d = some entries ∧ entries ≠ [] := by
  cases d with
  | none => simp [token_files_exist]
  | some entries =>
    simp [token_files_exist, List.isEmpty_iff]

/-- C8: the region flag parses to true exactly when the lowercased
environment value is one of `true`, `t`, `yes`, `1` (case-insensitive
acceptance), and it is false when the variable is unset. -/
theorem region_flag_parse (v : String) :
    (garminconnect_is_cn (some v) = true ↔
      (pyLower v = "true" ∨ pyLower v = "t" ∨ pyLower v = "yes" ∨ pyLower v = "1")) ∧
    garminconnect_is_cn none = false := by
  constructor
  · simp [garminconnect_is_cn]
  · decide

/-- C4: submitting the login form with an empty email or an empty
password never invokes the external login call, reports the validation
error, and leaves the session state unchanged. -/
theorem login_empty_input_validation (email password : String) (is_cn : Bool)
    (env : LoginEnv) (s : SessionState)
    (h : email = "" ∨ password = "") :
    (login_form_submit email password is_cn env s).loginCalled = false ∧
    (login_form_submit email password is_cn env s).validationError = true ∧
    (login_form_submit email password is_cn env s).state = s := by
  simp [login_form_submit, if_pos h]

/-- Witness for C4 at a concrete input: empty password, non-empty
email, a concrete environment and the initial session state. -/
theorem login_empty_input_validation_witness :
    ("a@b.com" = "" ∨ "" = "") ∧
    ((login_form_submit "a@b.com" "" false ⟨.ok ("ok", ""), none⟩ initSessionState).loginCalled = false ∧
     (login_form_submit "a@b.com" "" false ⟨.ok ("ok", ""), none⟩ initSessionState).validationError = true ∧
     (login_form_submit "a@b.com" "" false ⟨.ok ("ok", ""), none⟩ initSessionState).state = initSessionState) :=
  ⟨Or.inr rfl,
   login_empty_input_validation "a@b.com" "" false ⟨.ok ("ok", ""), none⟩ initSessionState (Or.inr rfl)⟩

/-- Helper: when every `unlink` succeeds, the deletion loop removes
every entry and raises nothing. -/
theorem clear_tokens_all_ok (l : List Entry) (h : ∀ x ∈ l, x.unlinkError = none) :
    clear_tokens l = ([], none) := by
  induction l with
  | nil => rfl
  | cons a rest ih =>
    have ha : a.unlinkError = none := h a (by simp)
    have hrest : ∀ x ∈ rest, x.unlinkError = none := fun x hx => h x (by simp [hx])
    simp [clear_tokens, ha, ih hrest]

/-- Helper: the deletion loop deletes entries left to right and stops
at the first failing `unlink`, leaving the failing entry and everything
after it. -/
theorem clear_tokens_stops_at_failure (pre post : List Entry) (e : Entry) (msg : String)
    (hpre : ∀ x ∈ pre, x.unlinkError = none) (he : e.unlinkError = some msg) :
    clear_tokens (pre ++ e :: post) = (e :: post, some msg) := by
  induction pre with
  | nil => simp [clear_tokens, he]
  | cons a rest ih =>
    have ha : a.unlinkError = none := hpre a (by simp)
    have hrest : ∀ x ∈ rest, x.unlinkError = none := fun x hx => hpre x (by simp [hx])
    simp [clear_tokens, ha, ih hrest]

/-- C5: a login call returning the `"needs_mfa"` sentinel stores the
challenge context and the live handle in session state, sets
`needs_mfa` (so the section-3 invariant that `needs_mfa` implies both
present holds), and never changes `authenticated`. -/
theorem login_needs_mfa_transition (email password ctx : String) (is_cn : Bool)
    (de : Option GError) (s : SessionState)
    (he : email ≠ "") (hp : password ≠ "") :
    (login_form_submit email password is_cn ⟨.ok ("needs_mfa", ctx), de⟩ s).state.needs_mfa = true ∧
    (login_form_submit email password is_cn ⟨.ok ("needs_mfa", ctx), de⟩ s).state.garmin_obj
      = some ⟨email, password, is_cn, true⟩ ∧
    (login_form_submit email password is_cn ⟨.ok ("needs_mfa", ctx), de⟩ s).state.mfa_data
      = some ctx ∧
    (login_form_submit email password is_cn ⟨.ok ("needs_mfa", ctx), de⟩ s).state.authenticated
      = s.authenticated := by
  have h : ¬(email = "" ∨ password = "") := by simp [he, hp]
  simp [login_form_submit, h]

/-- Witness for C5 at a concrete input. -/
theorem login_needs_mfa_transition_witness :
    (login_form_submit "a@b.com" "pw" false ⟨.ok ("needs_mfa", "ctx"), none⟩
        initSessionState).state.needs_mfa = true ∧
    (login_form_submit "a@b.com" "pw" false ⟨.ok ("needs_mfa", "ctx"), none⟩
        initSessionState).state.garmin_obj = some ⟨"a@b.com", "pw", false, true⟩ ∧
    (login_form_submit "a@b.com" "pw" false ⟨.ok ("needs_mfa", "ctx"), none⟩
        initSessionState).state.mfa_data = some "ctx" ∧
    (login_form_submit "a@b.com" "pw" false ⟨.ok ("needs_mfa", "ctx"), none⟩
        initSessionState).state.authenticated = initSessionState.authenticated :=
  login_needs_mfa_transition "a@b.com" "pw" "ctx" false none initSessionState
    (by decide) (by decide)

/-- C6: a login call returning any non-sentinel first value leads to
an immediate persistence attempt, and when the dump raises no error
`authenticated` is set to true. -/
theorem login_success_persists (email password r1 r2 : String) (is_cn : Bool)
    (de : Option GError) (s : SessionState)
    (he : email ≠ "") (hp : password ≠ "") (hr : r1 ≠ "needs_mfa") :
    (login_form_submit email password is_cn ⟨.ok (r1, r2), de⟩ s).dumpCalled = true ∧
    (de = none →
      (login_form_submit email password is_cn ⟨.ok (r1, r2), de⟩ s).state.authenticated = true) := by
  have h : ¬(email = "" ∨ password = "") := by simp [he, hp]
  cases de with
  | none => simp [login_form_submit, h, hr]
  | some e => simp [login_form_submit, h, hr]

/-- Witness for C6 at a concrete input. -/
theorem login_success_persists_witness :
    (login_form_submit "a@b.com" "pw" false ⟨.ok ("OAuth2Token", ""), none⟩
        initSessionState).dumpCalled = true ∧
    (login_form_submit "a@b.com" "pw" false ⟨.ok ("OAuth2Token", ""), none⟩
        initSessionState).state.authenticated = true :=
  ⟨(login_success_persists "a@b.com" "pw" "OAuth2Token" "" false none initSessionState
      (by decide) (by decide) (by decide)).1,
   (login_success_persists "a@b.com" "pw" "OAuth2Token" "" false none initSessionState
      (by decide) (by decide) (by decide)).2 rfl⟩

/-- C7: when `garth.dump` raises — after a non-MFA login success or
after a successful `resume_login` — the handler's `except` clause runs
before any session-state assignment, so the whole session state is
exactly its pre-persistence value (in particular `authenticated` is
not set and, in the second-factor case, `needs_mfa` stays true). -/
theorem persistence_error_keeps_state (email password r1 r2 code : String) (is_cn : Bool)
    (e e' : GError) (s t : SessionState)
    (he : email ≠ "") (hp : password ≠ "") (hr : r1 ≠ "needs_mfa") (hc : code ≠ "") :
    (login_form_submit email password is_cn ⟨.ok (r1, r2), some e⟩ s).state = s ∧
    (mfa_form_submit code ⟨none, some e'⟩ t).state = t := by
  have h : ¬(email = "" ∨ password = "") := by simp [he, hp]
  constructor
  · simp [login_form_submit, h, hr]
  · simp [mfa_form_submit, hc]

/-- Witness for C7 at a concrete input (the second-factor pre-state
has `needs_mfa = true` and both handles present). -/
theorem persistence_error_keeps_state_witness :
    (login_form_submit "a@b.com" "pw" false ⟨.ok ("OAuth2Token", ""), some (.other "disk full")⟩
        initSessionState).state = initSessionState ∧
    (mfa_form_submit "123456" ⟨none, some (.other "disk full")⟩
        ⟨false, true, some ⟨"a@b.com", "pw", false, true⟩, some "ctx"⟩).state
      = ⟨false, true, some ⟨"a@b.com", "pw", false, true⟩, some "ctx"⟩ :=
  persistence_error_keeps_state "a@b.com" "pw" "OAuth2Token" "" "123456" false
    (.other "disk full") (.other "disk full") initSessionState
    ⟨false, true, some ⟨"a@b.com", "pw", false, true⟩, some "ctx"⟩
    (by decide) (by decide) (by decide) (by decide)

/-- C10: when the external login call raises any exception, the
`except` clauses only render a banner: the session state afterwards is
exactly the pre-submission state, so starting from the initialised
state `authenticated` and `needs_mfa` stay false and `garmin_obj` and
`mfa_data` stay absent. -/
theorem login_exception_frame (email password : String) (is_cn : Bool)
    (e : GError) (de : Option GError) (s : SessionState)
    (he : email ≠ "") (hp : password ≠ "") :
    (login_form_submit email password is_cn ⟨.error e, de⟩ s).state = s ∧
    ((login_form_submit email password is_cn ⟨.error e, de⟩ initSessionState).state.authenticated = false ∧
     (login_form_submit email password is_cn ⟨.error e, de⟩ initSessionState).state.needs_mfa = false ∧
     (login_form_submit email password is_cn ⟨.error e, de⟩ initSessionState).state.garmin_obj = none ∧
     (login_form_submit email password is_cn ⟨.error e, de⟩ initSessionState).state.mfa_data = none) := by
  have h : ¬(email = "" ∨ password = "") := by simp [he, hp]
  constructor
  · simp [login_form_submit, h]
  · simp [login_form_submit, h, initSessionState]

/-- Witness for C10 at a concrete input. -/
theorem login_exception_frame_witness :
    (login_form_submit "a@b.com" "pw" false ⟨.error (.auth "bad creds"), none⟩
        initSessionState).state = initSessionState ∧
    ((login_form_submit "a@b.com" "pw" false ⟨.error (.auth "bad creds"), none⟩
        initSessionState).state.authenticated = false ∧
     (login_form_submit "a@b.com" "pw" false ⟨.error (.auth "bad creds"), none⟩
        initSessionState).state.needs_mfa = false ∧
     (login_form_submit "a@b.com" "pw" false ⟨.error (.auth "bad creds"), none⟩
        initSessionState).state.garmin_obj = none ∧
     (login_form_submit "a@b.com" "pw" false ⟨.error (.auth "bad creds"), none⟩
        initSessionState).state.mfa_data = none) :=
  login_exception_frame "a@b.com" "pw" false (.auth "bad creds") none initSessionState
    (by decide) (by decide)

/-- C9: clearing a directory whose deletions all succeed leaves 0
entries and no error, after which Token Presence Check returns
`absent`; when some deletion fails, the handler reports the underlying
message and the entries deleted before the failure stay deleted (the
failing entry and those after it remain; nothing is rolled back). -/
theorem clear_tokens_spec (good pre post : List Entry) (e : Entry) (msg : String)
    (hg : ∀ x ∈ good, x.unlinkError = none)
    (hpre : ∀ x ∈ pre, x.unlinkError = none)
    (he : e.unlinkError = some msg) :
    (clear_tokens_handler good = ([], none) ∧
     token_files_exist (some (clear_tokens_handler good).1) = false) ∧
    clear_tokens_handler (pre ++ e :: post)
      = (e :: post, some ("Error clearing tokens: " ++ msg)) := by
  have h1 := clear_tokens_all_ok good hg
  have h2 := clear_tokens_stops_at_failure pre post e msg hpre he
  refine ⟨⟨?_, ?_⟩, ?_⟩
  · simp [clear_tokens_handler, h1]
  · simp [clear_tokens_handler, h1, token_files_exist]
  · simp [clear_tokens_handler, h2]

/-- Witness for C9 at concrete inputs: a two-entry directory whose
deletions succeed, and a directory `[good, bad, after]` whose second
entry fails to delete. -/
theorem clear_tokens_spec_witness :
    (clear_tokens_handler [⟨"oauth1_token.json", none⟩, ⟨"oauth2_token.json", none⟩] = ([], none) ∧
     token_files_exist
       (some (clear_tokens_handler [⟨"oauth1_token.json", none⟩, ⟨"oauth2_token.json", none⟩]).1)
       = false) ∧
    clear_tokens_handler
        ([⟨"oauth1_token.json", none⟩] ++ ⟨"oauth2_token.json", some "Permission denied"⟩
          :: [⟨"extra.json", none⟩])
      = (⟨"oauth2_token.json", some "Permission denied"⟩ :: [⟨"extra.json", none⟩],
         some ("Error clearing tokens: " ++ "Permission denied")) :=
  clear_tokens_spec [⟨"oauth1_token.json", none⟩, ⟨"oauth2_token.json", none⟩]
    [⟨"oauth1_token.json", none⟩] [⟨"extra.json", none⟩]
    ⟨"oauth2_token.json", some "Permission denied"⟩ "Permission denied"
    (by decide) (by decide) (by decide)

/-- C1 counterexample: run the reachable MFA flow concretely — from
the initial session state, a login submission returning the
`"needs_mfa"` sentinel, then a successful MFA submission (successful
persistence).  Afterwards `authenticated` is true, yet `garmin_obj`
and `mfa_data` are still present: lines 184-185 of `app.py` set
`authenticated` and `needs_mfa` but never clear the other two fields,
refuting the claim that `authenticated = true` implies both absent. -/
theorem session_invariant_counterexample :
    (mfa_form_submit "123456" ⟨none, none⟩
        (login_form_submit "a@b.com" "pw" false ⟨.ok ("needs_mfa", "ctx"), none⟩
          initSessionState).state).state.authenticated = true ∧
    (mfa_form_submit "123456" ⟨none, none⟩
        (login_form_submit "a@b.com" "pw" false ⟨.ok ("needs_mfa", "ctx"), none⟩
          initSessionState).state).state.garmin_obj ≠ none ∧
    (mfa_form_submit "123456" ⟨none, none⟩
        (login_form_submit "a@b.com" "pw" false ⟨.ok ("needs_mfa", "ctx"), none⟩
          initSessionState).state).state.mfa_data ≠ none := by
  decide

/-- C1 amended: after a successful persistence `authenticated` is set
true, and on the second-factor path `needs_mfa` is cleared, but
`garmin_obj` and `mfa_data` are left unchanged rather than cleared: on
the no-MFA path they stay absent only because that path never set
them, while on the second-factor path they remain present. -/
theorem session_invariant_amended (email password r1 r2 code : String) (is_cn : Bool)
    (s t : SessionState)
    (he : email ≠ "") (hp : password ≠ "") (hr : r1 ≠ "needs_mfa") (hc : code ≠ "") :
    ((login_form_submit email password is_cn ⟨.ok (r1, r2), none⟩ s).state.authenticated = true ∧
     (login_form_submit email password is_cn ⟨.ok (r1, r2), none⟩ s).state.garmin_obj = s.garmin_obj ∧
     (login_form_submit email password is_cn ⟨.ok (r1, r2), none⟩ s).state.mfa_data = s.mfa_data) ∧
    ((mfa_form_submit code ⟨none, none⟩ t).state.authenticated = true ∧
     (mfa_form_submit code ⟨none, none⟩ t).state.needs_mfa = false ∧
     (mfa_form_submit code ⟨none, none⟩ t).state.garmin_obj = t.garmin_obj ∧
     (mfa_form_submit code ⟨none, none⟩ t).state.mfa_data = t.mfa_data) := by
  have h : ¬(email = "" ∨ password = "") := by simp [he, hp]
  constructor
  · simp [login_form_submit, h, hr]
  · simp [mfa_form_submit, hc]

/-- Witness for the amended C1 at concrete inputs; the second-factor
pre-state is the one reached after a needs-MFA login. -/
theorem session_invariant_amended_witness :
    ((login_form_submit "a@b.com" "pw" false ⟨.ok ("OAuth2Token", ""), none⟩
        initSessionState).state.authenticated = true ∧
     (login_form_submit "a@b.com" "pw" false ⟨.ok ("OAuth2Token", ""), none⟩
        initSessionState).state.garmin_obj = initSessionState.garmin_obj ∧
     (login_form_submit "a@b.com" "pw" false ⟨.ok ("OAuth2Token", ""), none⟩
        initSessionState).state.mfa_data = initSessionState.mfa_data) ∧
    ((mfa_form_submit "123456" ⟨none, none⟩
        ⟨false, true, some ⟨"a@b.com", "pw", false, true⟩, some "ctx"⟩).state.authenticated = true ∧
     (mfa_form_submit "123456" ⟨none, none⟩
        ⟨false, true, some ⟨"a@b.com", "pw", false, true⟩, some "ctx"⟩).state.needs_mfa = false ∧
     (mfa_form_submit "123456" ⟨none, none⟩
        ⟨false, true, some ⟨"a@b.com", "pw", false, true⟩, some "ctx"⟩).state.garmin_obj
       = (⟨false, true, some ⟨"a@b.com", "pw", false, true⟩, some "ctx"⟩ : SessionState).garmin_obj ∧
     (mfa_form_submit "123456" ⟨none, none⟩
        ⟨false, true, some ⟨"a@b.com", "pw", false, true⟩, some "ctx"⟩).state.mfa_data
       = (⟨false, true, some ⟨"a@b.com", "pw", false, true⟩, some "ctx"⟩ : SessionState).mfa_data) :=
  session_invariant_amended "a@b.com" "pw" "OAuth2Token" "" "123456" false
    initSessionState ⟨false, true, some ⟨"a@b.com", "pw", false, true⟩, some "ctx"⟩
    (by decide) (by decide) (by decide) (by decide)

/-- C2 counterexample: a session that already set `authenticated` to
true clears the token directory successfully (one entry, deletion
succeeds), making Token Presence Check return `absent` — yet the
line-120 gate `not authenticated and not token_files_exist` still
evaluates to false, so the login form is not shown again, refuting the
claim that clearing shows the login form even for such a session. -/
theorem clear_not_reset_counterexample :
    clear_tokens [⟨"oauth1_token.json", none⟩] = ([], none) ∧
    token_files_exist (some ([] : List Entry)) = false ∧
    show_login_form ⟨true, false, none, none⟩ (token_files_exist (some ([] : List Entry)))
      = false := by
  decide

/-- C2 amended: a successful clearing makes Token Presence Check
return `absent`, and the login form is then shown for a session whose
`authenticated` flag is false (such as a fresh session); the clearing
does not reset `authenticated` itself, so a session that had set it to
true keeps suppressing the login form. -/
theorem clear_shows_login_form_amended (s : SessionState) (l : List Entry)
    (ha : s.authenticated = false) (hl : ∀ x ∈ l, x.unlinkError = none) :
    clear_tokens l = ([], none) ∧
    token_files_exist (some (clear_tokens l).1) = false ∧
    show_login_form s (token_files_exist (some (clear_tokens l).1)) = true := by
  have h1 := clear_tokens_all_ok l hl
  refine ⟨h1, ?_, ?_⟩
  · simp [h1, token_files_exist]
  · simp [h1, token_files_exist, show_login_form, ha]

/-- Witness for the amended C2 at a concrete input: a fresh session
and a one-entry directory whose deletion succeeds. -/
theorem clear_shows_login_form_amended_witness :
    clear_tokens [⟨"oauth1_token.json", none⟩] = ([], none) ∧
    token_files_exist (some (clear_tokens [⟨"oauth1_token.json", none⟩]).1) = false ∧
    show_login_form initSessionState
      (token_files_exist (some (clear_tokens [⟨"oauth1_token.json", none⟩]).1)) = true :=
  clear_shows_login_form_amended initSessionState [⟨"oauth1_token.json", none⟩]
    (by decide) (by decide)

end GarminApp
